import Mathlib

/-
Verification of the request-scoped config cache and cross-tier hydration
pipeline of the stc-next-poc repository.

The embedding follows the TypeScript sources:
  * src/services/types/api.ts      — the Config entity
  * src/lib/api.ts                 — fetchConfig with its fallback branch
  * server-data-store (React-cache variant) — getCachedConfigData,
    getConfigDataForComponent, prepareSSRData
  * server-data-store (module-slot variant) — serverSSRData,
    setServerSSRData, getServerSSRData, resetServerSSRData
  * src/store/config.ts            — configAtom, updateConfigAtom
  * src/components/config-display.tsx — refreshConfig
  * ssr-provider                   — SSRProvider over jotai useHydrateAtoms
-/

set_option autoImplicit false

namespace STC

/-- Value of a settings entry (`Record<string, unknown>` in the source holds
numbers and strings, e.g. `itemsPerPage: 10`, `maxFileSize: "5MB"`). -/
inductive SettingVal where
  | nat (n : Nat)
  | str (s : String)
  deriving Repr, DecidableEq

/-- The Config entity from src/services/types/api.ts.  Every declared field is
optional there (`appName?`, `version?`, ...), so each is an `Option`.  The
`statusCode` field is admitted by the open `Record<string, unknown>` extension
and is set by the fallback branch of fetchConfig. -/
structure Config where
  appName : Option String := none
  version : Option String := none
  environment : Option String := none
  features : Option (List (String × Bool)) := none
  settings : Option (List (String × SettingVal)) := none
  apiStatus : Option String := none
  error : Option String := none
  errorDetails : Option String := none
  statusCode : Option String := none
  expectedEndpoint : Option String := none
  lastAttempt : Option String := none
  lastRefresh : Option String := none
  fallbackData : Option Bool := none
  deriving Repr, DecidableEq

/-- ApiResponse<Config> from src/lib/api.ts. -/
structure ApiResponse where
  result : Config
  deriving Repr, DecidableEq

/-- Failure of `configService.getConfig()` as discriminated by the catch block
of fetchConfig in src/lib/api.ts: an axios error with a response, an axios
error with only a request, an axios setup error carrying a message, or a
generic `Error`. -/
inductive FetchError where
  | httpResponse (status : Nat) (statusText : String)
  | requestNoResponse
  | setupMessage (msg : String)
  | generic (msg : String)
  deriving Repr, DecidableEq

/-- API_BASE_URL default from src/lib/api.ts. -/
def API_BASE_URL : String := "http://localhost:4000"

/-- The fullUrl computed at the top of fetchConfig. -/
def fullUrl : String := API_BASE_URL ++ "/configs"

/-- The errorMessage variable computed by the catch block of fetchConfig. -/
def errorMessageOf : FetchError → String
  | .httpResponse status statusText =>
      "HTTP " ++ toString status ++ ": " ++ statusText
  | .requestNoResponse =>
      "No response received from server - API may be offline"
  | .setupMessage msg => msg
  | .generic msg => msg

/-- The statusCode variable computed by the catch block of fetchConfig: the
HTTP status when the error carries a response, otherwise "Unknown". -/
def statusCodeOf : FetchError → String
  | .httpResponse status _ => toString status
  | _ => "Unknown"

/-- The fallbackResponse value built by the catch block of fetchConfig
(src/lib/api.ts lines 70-92); `now` stands for `new Date().toISOString()`. -/
def fallbackResponse (e : FetchError) (now : String) : ApiResponse :=
  { result :=
    { error := some ("Failed to connect to STC API at " ++ fullUrl)
      errorDetails := some (errorMessageOf e)
      statusCode := some (statusCodeOf e)
      fallbackData := some true
      appName := some "Skilled Trades Connect (Fallback)"
      version := some "1.0.0-fallback"
      environment := some "development"
      apiStatus := some "disconnected"
      lastAttempt := some now
      expectedEndpoint := some fullUrl
      features := some [("jobBoard", true), ("userProfiles", true),
                        ("messaging", true)]
      settings := some [("itemsPerPage", .nat 10),
                        ("maxFileSize", .str "5MB")] } }

/-- fetchConfig from src/lib/api.ts.  The network call
`configService.getConfig()` is embedded as its outcome: `.ok c` when the
service resolved with result `c`, `.error e` when it threw.  On success the
response is passed through; on failure the catch block returns the fallback
structure instead of propagating the error. -/
def fetchConfig (outcome : Except FetchError Config) (now : String) :
    ApiResponse :=
  match outcome with
  | .ok c => { result := c }
  | .error e => fallbackResponse e now

/-- SSRData from server-data-store: `config : Config | null` is an
`Option Config` (none = null), timestamp and source are strings. -/
structure SSRData where
  config : Option Config
  timestamp : String
  source : String
  deriving Repr, DecidableEq

/-- Partial<SSRData>, the argument type of prepareSSRData and
setServerSSRData.  An outer `Option` marks whether the key is present
(`none` = the field is undefined / omitted); for `config` the inner
`Option Config` is the declared `Config | null` value. -/
structure SSRDataPatch where
  config : Option (Option Config) := none
  timestamp : Option String := none
  source : Option String := none
  deriving Repr, DecidableEq

/-- One hydration tuple `[atom, value]` pushed by prepareSSRData: the target
atom is identified by the constructor, the carried value is typed per atom
(ssrConfigAtom holds `Config | null`, the other two hold strings). -/
inductive HydratePair where
  | configPair (v : Option Config)
  | timestampPair (s : String)
  | sourcePair (s : String)
  deriving Repr, DecidableEq

/-- prepareSSRData from server-data-store: pushes `[ssrConfigAtom, data.config]`
when `data.config !== undefined`, then likewise for timestamp and source, in
that order. -/
def prepareSSRData (data : SSRDataPatch) : List HydratePair :=
  (match data.config with
   | some v => [HydratePair.configPair v]
   | none => []) ++
  (match data.timestamp with
   | some s => [HydratePair.timestampPair s]
   | none => []) ++
  (match data.source with
   | some s => [HydratePair.sourcePair s]
   | none => [])

/-- The ssrConfig values carried by a payload's config pairs, used to state
which pairs prepareSSRData emits. -/
def configPairs (l : List HydratePair) : List (Option Config) :=
  l.filterMap fun p =>
    match p with
    | .configPair v => some v
    | _ => none

/-- The values carried by a payload's timestamp pairs. -/
def timestampPairs (l : List HydratePair) : List String :=
  l.filterMap fun p =>
    match p with
    | .timestampPair s => some s
    | _ => none

/-- The values carried by a payload's source pairs. -/
def sourcePairs (l : List HydratePair) : List String :=
  l.filterMap fun p =>
    match p with
    | .sourcePair s => some s
    | _ => none

/-- The client-side jotai store restricted to the three SSR atoms declared in
server-data-store (`ssrConfigAtom` with default null, `ssrTimestampAtom` and
`ssrSourceAtom` with default "").  The hydrated flags record which atoms have
already been hydrated in this store. -/
structure SSRAtomStore where
  ssrConfig : Option Config
  ssrTimestamp : String
  ssrSource : String
  hydratedConfig : Bool
  hydratedTimestamp : Bool
  hydratedSource : Bool
  deriving Repr, DecidableEq

/-- A fresh client store: each SSR atom holds its declared default
(`atom<Config | null>(null)`, `atom<string>("")`) and nothing is hydrated. -/
def freshSSRStore : SSRAtomStore :=
  { ssrConfig := none, ssrTimestamp := "", ssrSource := ""
    hydratedConfig := false, hydratedTimestamp := false
    hydratedSource := false }

/-- Modelled from the spec: jotai's useHydrateAtoms (an external library
function, not under src/) writes one hydration tuple into the store, but only
the first time each atom is hydrated in a given store; a tuple for an
already-hydrated atom is ignored, which is what makes a repeated hydration a
no-op as §4.4 of the spec requires. -/
def hydrateOne (s : SSRAtomStore) : HydratePair → SSRAtomStore
  | .configPair v =>
      if s.hydratedConfig then s
      else { s with ssrConfig := v, hydratedConfig := true }
  | .timestampPair t =>
      if s.hydratedTimestamp then s
      else { s with ssrTimestamp := t, hydratedTimestamp := true }
  | .sourcePair src =>
      if s.hydratedSource then s
      else { s with ssrSource := src, hydratedSource := true }

/-- Modelled from the spec: jotai's useHydrateAtoms applied to a list of
hydration tuples processes them in order. -/
def useHydrateAtoms (pairs : List HydratePair) (s : SSRAtomStore) :
    SSRAtomStore :=
  pairs.foldl hydrateOne s

/-- SSRProvider from ssr-provider: builds the hydration tuples with
prepareSSRData when ssrData was passed (an empty list otherwise) and feeds
them to useHydrateAtoms. -/
def SSRProvider (ssrData : Option SSRDataPatch) (s : SSRAtomStore) :
    SSRAtomStore :=
  useHydrateAtoms
    (match ssrData with
     | some d => prepareSSRData d
     | none => []) s

/-- ConfigState from src/store/config.ts. -/
structure ConfigState where
  config : Option Config
  isLoading : Bool
  error : Option String
  deriving Repr, DecidableEq

/-- The default state the configAtom is created with. -/
def initialConfigState : ConfigState :=
  { config := none, isLoading := false, error := none }

/-- Partial<ConfigState>, the argument of the updateConfigAtom action.  The
outer `Option` marks key presence; `config` carries `Config | null` and
`error` carries `string | null` when present. -/
structure ConfigStatePatch where
  config : Option (Option Config) := none
  isLoading : Option Bool := none
  error : Option (Option String) := none
  deriving Repr, DecidableEq

/-- updateConfigAtom from src/store/config.ts:
`set(configAtom, { ...current, ...update })` — a shallow merge where fields
present in the update replace the current ones and absent fields are kept. -/
def updateConfig (current : ConfigState) (update : ConfigStatePatch) :
    ConfigState :=
  { config := update.config.getD current.config
    isLoading := update.isLoading.getD current.isLoading
    error := update.error.getD current.error }

/-- The update issued at the start of refreshConfig in
src/components/config-display.tsx: `{ isLoading: true, error: null }`. -/
def refreshStart : ConfigStatePatch :=
  { isLoading := some true, error := some none }

/-- The update issued when the refresh's network call settles: on success
`{ config: response.result, isLoading: false, error: null }`, on failure
`{ isLoading: false, error: 'Failed to refresh config' }` (the catch block
does not touch config). -/
def refreshFinish (outcome : Except Unit Config) : ConfigStatePatch :=
  match outcome with
  | .ok c =>
      { config := some (some c), isLoading := some false, error := some none }
  | .error _ =>
      { isLoading := some false, error := some "Failed to refresh config" }

/-- refreshConfig from src/components/config-display.tsx (also useRefreshData):
applies the start update, then the finish update for the given network
outcome; returns the intermediate and the final store state. -/
def refreshConfig (s : ConfigState) (outcome : Except Unit Config) :
    ConfigState × ConfigState :=
  let s1 := updateConfig s refreshStart
  (s1, updateConfig s1 (refreshFinish outcome))

/-- The module-level serverSSRData slot's value on module load and after
resetServerSSRData. -/
def initialServerSSRData : SSRData :=
  { config := none, timestamp := "", source := "" }

/-- setServerSSRData from server-data-store (module-slot variant):
`serverSSRData = { ...serverSSRData, ...data }` — a shallow merge of the
partially-given entry over the current slot. -/
def setServerSSRData (slot : SSRData) (data : SSRDataPatch) : SSRData :=
  { config := data.config.getD slot.config
    timestamp := data.timestamp.getD slot.timestamp
    source := data.source.getD slot.source }

/-- getServerSSRData: returns (a shallow copy of) the current slot. -/
def getServerSSRData (slot : SSRData) : SSRData := slot

/-- resetServerSSRData: puts the slot back to its initial value. -/
def resetServerSSRData (_slot : SSRData) : SSRData := initialServerSSRData

/-- Modelled from the spec: the per-request memo table of React's `cache`
(an external primitive, not under src/), which getCachedConfigData is wrapped
in.  §4.2: the cache is scoped to one rendering request and keyed by the
(constant) argument list, so one request holds at most one memoized SSRData;
the memo is installed by the first call and concurrent callers arriving
before the fetch resolves attach to the same in-flight operation, so they
observe the same entry. -/
structure RequestCacheState where
  memo : Option SSRData
  deriving Repr, DecidableEq

/-- The request cache at the start of a server-rendered request: empty. -/
def freshRequestCache : RequestCacheState := { memo := none }

/-- getCachedConfigData from server-data-store (React-cache variant): on a
cache miss it awaits fetchConfig, builds the SSRData with the response's
result, the current timestamp and source "React Cache", and memoizes it; on a
hit it returns the memoized SSRData.  The third component counts how many
times fetchConfig was invoked by this call (1 on a miss, 0 on a hit). -/
def getCachedConfigData (st : RequestCacheState)
    (outcome : Except FetchError Config) (now : String) :
    SSRData × RequestCacheState × Nat :=
  match st.memo with
  | some d => (d, st, 0)
  | none =>
      let d : SSRData :=
        { config := some (fetchConfig outcome now).result
          timestamp := now
          source := "React Cache" }
      (d, { memo := some d }, 1)

/-- getConfigDataForComponent from server-data-store: logs the component name
and returns `await getCachedConfigData()` unchanged. -/
def getConfigDataForComponent (_componentName : String)
    (st : RequestCacheState) (outcome : Except FetchError Config)
    (now : String) : SSRData × RequestCacheState × Nat :=
  getCachedConfigData st outcome now

/-- Runs one call to getConfigDataForComponent per listed caller, in order,
within a single request; collects the SSRData each caller observed and the
total number of fetchConfig invocations. -/
def runCallers (outcome : Except FetchError Config) (now : String) :
    List String → RequestCacheState → List SSRData × RequestCacheState × Nat
  | [], st => ([], st, 0)
  | c :: cs, st =>
      let r := getConfigDataForComponent c st outcome now
      let rest := runCallers outcome now cs r.2.1
      (r.1 :: rest.1, rest.2.1, r.2.2 + rest.2.2)

/-- The SSRData computed by the first (cache-missing) call of a request. -/
def firstSnapshot (outcome : Except FetchError Config) (now : String) :
    SSRData :=
  { config := some (fetchConfig outcome now).result
    timestamp := now
    source := "React Cache" }

/-- One step of two concurrently rendering requests acting on the single
module-level serverSSRData slot: a request publishes its entry with
setServerSSRData, or a request's render pass reads the slot with
getServerSSRData.  `reqId` names the request performing the read. -/
inductive RegistryOp where
  | publish (data : SSRDataPatch)
  | read (reqId : Nat)
  deriving Repr, DecidableEq

/-- Executes an interleaving of registry operations against the shared slot,
collecting for each read the id of the reading request and the SSRData it
observed. -/
def runRegistrySchedule (slot : SSRData) :
    List RegistryOp → SSRData × List (Nat × SSRData)
  | [] => (slot, [])
  | .publish data :: ops => runRegistrySchedule (setServerSSRData slot data) ops
  | .read reqId :: ops =>
      let rest := runRegistrySchedule slot ops
      (rest.1, (reqId, getServerSSRData slot) :: rest.2)

/-- The config fetched by request A in the spec's §8 leakage scenario. -/
def cfgA : Config := { appName := some "X", version := some "1" }

/-- The config fetched by request B in the spec's §8 leakage scenario. -/
def cfgB : Config := { appName := some "Y", version := some "2" }

/-- The entry request A's RootLayout publishes (all three fields present, as
in the RootLayout source). -/
def entryA : SSRDataPatch :=
  { config := some (some cfgA), timestamp := some "tA"
    source := some "Root Layout" }

/-- The entry request B's RootLayout publishes. -/
def entryB : SSRDataPatch :=
  { config := some (some cfgB), timestamp := some "tB"
    source := some "Root Layout" }

/-- The interleaving in which request B's RootLayout publishes between
request A's publish and the reads of A's render pass: A publishes, B
publishes, A's components read, B's components read. -/
def leakSchedule : List RegistryOp :=
  [.publish entryA, .publish entryB, .read 0, .read 1]

/-- Claim C3: on every failure of the underlying fetch, fetchConfig does not
propagate the error; it returns a degraded snapshot carrying the error code,
a human-readable detail string, the attempted endpoint, the capture
timestamp, and non-null default feature flags and settings (together with the
fallback app identity fields), sufficient to render a default UI state. -/
theorem fetchConfig_failure_returns_degraded_snapshot
    (e : FetchError) (now : String) :
    (fetchConfig (.error e) now).result.statusCode = some (statusCodeOf e) ∧
    (fetchConfig (.error e) now).result.errorDetails
      = some (errorMessageOf e) ∧
    (fetchConfig (.error e) now).result.expectedEndpoint = some fullUrl ∧
    (fetchConfig (.error e) now).result.lastAttempt = some now ∧
    (fetchConfig (.error e) now).result.features
      = some [("jobBoard", true), ("userProfiles", true),
              ("messaging", true)] ∧
    (fetchConfig (.error e) now).result.settings
      = some [("itemsPerPage", .nat 10), ("maxFileSize", .str "5MB")] ∧
    (fetchConfig (.error e) now).result.appName
      = some "Skilled Trades Connect (Fallback)" ∧
    (fetchConfig (.error e) now).result.version = some "1.0.0-fallback" ∧
    (fetchConfig (.error e) now).result.environment = some "development" ∧
    (fetchConfig (.error e) now).result.error
      = some ("Failed to connect to STC API at " ++ fullUrl) :=
  ⟨rfl, rfl, rfl, rfl, rfl, rfl, rfl, rfl, rfl, rfl⟩

/-- Claim C9: every snapshot produced by the failure branch of fetchConfig
carries fallbackData = true and apiStatus = "disconnected", so a consumer can
distinguish a degraded snapshot from a successfully fetched one. -/
theorem fetchConfig_failure_marks_fallback (e : FetchError) (now : String) :
    (fetchConfig (.error e) now).result.fallbackData = some true ∧
    (fetchConfig (.error e) now).result.apiStatus = some "disconnected" :=
  ⟨rfl, rfl⟩

/-- Claim C5: a client refresh first sets isLoading = true and error = null
while leaving the stored config untouched; on success it stores the new
snapshot with isLoading = false and error = null; on failure it sets
isLoading = false and an error message while the previously stored config
survives unchanged (stale-while-error). -/
theorem refreshConfig_stale_while_error (s : ConfigState) (c : Config) :
    (updateConfig s refreshStart).isLoading = true ∧
    (updateConfig s refreshStart).error = none ∧
    (updateConfig s refreshStart).config = s.config ∧
    (refreshConfig s (.ok c)).2
      = { config := some c, isLoading := false, error := none } ∧
    (refreshConfig s (.error ())).2.config = s.config ∧
    (refreshConfig s (.error ())).2.isLoading = false ∧
    (refreshConfig s (.error ())).2.error
      = some "Failed to refresh config" :=
  ⟨rfl, rfl, rfl, rfl, rfl, rfl, rfl⟩

/-- Claim C6 counterexample: publishing the entry that provides only the
timestamp field over a slot holding request A's config does not fully replace
the previous entry and is not independent of the prior slot contents — the
previous config and source survive the publish, unlike what publishing the
same entry over the empty slot yields. -/
theorem setServerSSRData_sparse_entry_keeps_old_fields :
    getServerSSRData
        (setServerSSRData
          { config := some cfgA, timestamp := "t1", source := "A" }
          { timestamp := some "t2" })
      = { config := some cfgA, timestamp := "t2", source := "A" } ∧
    setServerSSRData initialServerSSRData { timestamp := some "t2" }
      = { config := none, timestamp := "t2", source := "" } ∧
    ({ config := some cfgA, timestamp := "t2", source := "A" } : SSRData)
      ≠ { config := none, timestamp := "t2", source := "" } := by
  refine ⟨rfl, rfl, ?_⟩
  decide

/-- Claim C6 (amended): setServerSSRData performs a shallow merge — every
field present in the published entry replaces the slot's field and every
absent field retains the previous slot's value; in particular an entry
providing all three fields (as RootLayout publishes) fully replaces the slot,
and a subsequent read returns exactly that entry. -/
theorem setServerSSRData_shallow_merge (prev : SSRData) (e : SSRDataPatch)
    (c : Option Config) (t src : String) :
    setServerSSRData prev e
      = { config := e.config.getD prev.config
          timestamp := e.timestamp.getD prev.timestamp
          source := e.source.getD prev.source } ∧
    getServerSSRData
        (setServerSSRData prev
          { config := some c, timestamp := some t, source := some src })
      = { config := c, timestamp := t, source := src } :=
  ⟨rfl, rfl⟩

/-- Claim C7 counterexample: refreshes R1 (fetching cfgA) and R2 (fetching
cfgB) start in order R1, R2; R2's network call completes first with cfgB and
R1's completes later with cfgA.  The final store state holds R1's data, not
R2's: nothing guards against the older refresh's late success overwriting the
newer result. -/
theorem refresh_race_last_completion_overwrites :
    (List.foldl updateConfig initialConfigState
        [refreshStart, refreshStart,
         refreshFinish (Except.ok cfgB),
         refreshFinish (Except.ok cfgA)]).config = some cfgA ∧
    cfgA ≠ cfgB := by
  refine ⟨rfl, ?_⟩
  decide

/-- Claim C7 (amended): when two refreshes race, the refresh whose network
call completes last determines the final store state — an older refresh
completing after a newer one overwrites the newer result, because
refreshConfig applies each completion's update unconditionally with no
sequence-number guard. -/
theorem refresh_race_completion_order_wins (s : ConfigState)
    (c1 c2 : Config) :
    List.foldl updateConfig s
        [refreshStart, refreshStart,
         refreshFinish (Except.ok c2),
         refreshFinish (Except.ok c1)]
      = { config := some c1, isLoading := false, error := none } :=
  rfl

/-- Claim C2: evaluation of the shared module-level slot at the failing
interleaving.  Request A (id 0) publishes its entry, request B (id 1)
publishes its entry, then each request's render pass reads the slot.  A's
read observes B's CacheEntry (config cfgB, timestamp "tB") instead of the
snapshot A itself published (cfgA, "tA"): the single process-wide slot leaks
one request's data into the other's render pass. -/
theorem serverSSRData_cross_request_leakage :
    (runRegistrySchedule initialServerSSRData leakSchedule).2
      = [(0, { config := some cfgB, timestamp := "tB",
               source := "Root Layout" }),
         (1, { config := some cfgB, timestamp := "tB",
               source := "Root Layout" })] ∧
    ({ config := some cfgB, timestamp := "tB",
       source := "Root Layout" } : SSRData)
      ≠ { config := some cfgA, timestamp := "tA",
          source := "Root Layout" } := by
  refine ⟨rfl, ?_⟩
  decide

/-- Helper: once the request cache is warm, every further caller in the same
request observes the memoized snapshot and performs no fetch. -/
theorem runCallers_warm (outcome : Except FetchError Config) (now : String)
    (d : SSRData) (cs : List String) :
    runCallers outcome now cs { memo := some d }
      = (List.replicate cs.length d, { memo := some d }, 0) := by
  induction cs with
  | nil => rfl
  | cons c cs ih =>
      simp [runCallers, getConfigDataForComponent, getCachedConfigData, ih,
            List.replicate]

/-- Claim C1: within one server-rendered request, any nonempty sequence of
callers of the request cache triggers exactly one fetchConfig invocation, and
every caller — first and subsequent alike — observes the one snapshot
computed by that single fetch. -/
theorem requestCache_single_flight (outcome : Except FetchError Config)
    (now : String) (c0 : String) (cs : List String) :
    runCallers outcome now (c0 :: cs) freshRequestCache
      = (List.replicate (cs.length + 1) (firstSnapshot outcome now),
         { memo := some (firstSnapshot outcome now) }, 1) := by
  simp [runCallers, getConfigDataForComponent, getCachedConfigData,
        freshRequestCache, runCallers_warm, firstSnapshot, List.replicate]

/-- Claim C4: hydrating a fresh client store with the payload prepareSSRData
builds from a snapshot yields per-cell values equal to the snapshot's fields
(a cell absent from the snapshot gets no pair, shown by the pair lists, and
keeps its declared default none / ""), and a full SSRData maps every
recognized cell to exactly one pair. -/
theorem hydration_roundtrip (p : SSRDataPatch) (d : SSRData) :
    (SSRProvider (some p) freshSSRStore).ssrConfig = p.config.getD none ∧
    (SSRProvider (some p) freshSSRStore).ssrTimestamp
      = p.timestamp.getD "" ∧
    (SSRProvider (some p) freshSSRStore).ssrSource = p.source.getD "" ∧
    configPairs (prepareSSRData p) = p.config.toList ∧
    timestampPairs (prepareSSRData p) = p.timestamp.toList ∧
    sourcePairs (prepareSSRData p) = p.source.toList ∧
    prepareSSRData { config := some d.config, timestamp := some d.timestamp,
                     source := some d.source }
      = [.configPair d.config, .timestampPair d.timestamp,
         .sourcePair d.source] := by
  obtain ⟨pc, pt, ps⟩ := p
  cases pc <;> cases pt <;> cases ps <;>
    exact ⟨rfl, rfl, rfl, rfl, rfl, rfl, rfl⟩

/-- Claim C10: prepareSSRData emits a pair exactly for the defined fields —
the pair lists equal the fields' Option.toList, so a pair is omitted iff the
field is undefined, and a null config (inner none) counts as present: the
input with config = null yields the payload [configPair null], and hydrating
the fresh store with it seeds the config cell (its hydrated flag is set)
with null. -/
theorem prepareSSRData_null_is_present (p : SSRDataPatch) :
    configPairs (prepareSSRData p) = p.config.toList ∧
    timestampPairs (prepareSSRData p) = p.timestamp.toList ∧
    sourcePairs (prepareSSRData p) = p.source.toList ∧
    prepareSSRData { config := some none }
      = [HydratePair.configPair none] ∧
    (SSRProvider (some { config := some none }) freshSSRStore).hydratedConfig
      = true ∧
    (SSRProvider (some { config := some none }) freshSSRStore).ssrConfig
      = none := by
  obtain ⟨pc, pt, ps⟩ := p
  cases pc <;> cases pt <;> cases ps <;>
    exact ⟨rfl, rfl, rfl, rfl, rfl, rfl⟩

/-- Whether the atom a hydration pair targets has already been hydrated in
the store. -/
def hydratedFlag (s : SSRAtomStore) : HydratePair → Bool
  | .configPair _ => s.hydratedConfig
  | .timestampPair _ => s.hydratedTimestamp
  | .sourcePair _ => s.hydratedSource

/-- Helper: hydrating one pair never clears another pair's hydrated flag. -/
theorem hydratedFlag_mono (s : SSRAtomStore) (p q : HydratePair)
    (h : hydratedFlag s q = true) :
    hydratedFlag (hydrateOne s p) q = true := by
  cases p <;> cases q <;> simp [hydrateOne, hydratedFlag] at * <;>
    split <;> simp_all

/-- Helper: after hydrating a pair, the atom it targets is hydrated. -/
theorem hydratedFlag_self (s : SSRAtomStore) (p : HydratePair) :
    hydratedFlag (hydrateOne s p) p = true := by
  cases p <;> simp [hydrateOne, hydratedFlag] <;> split <;> simp_all

/-- Helper: a pair whose atom is already hydrated is ignored. -/
theorem hydrateOne_of_hydrated (s : SSRAtomStore) (p : HydratePair)
    (h : hydratedFlag s p = true) :
    hydrateOne s p = s := by
  cases p <;> simp [hydrateOne, hydratedFlag] at * <;> simp [h]

/-- Helper: a whole hydration pass never clears a hydrated flag. -/
theorem useHydrateAtoms_flag_mono (pairs : List HydratePair)
    (s : SSRAtomStore) (q : HydratePair) (h : hydratedFlag s q = true) :
    hydratedFlag (useHydrateAtoms pairs s) q = true := by
  induction pairs generalizing s with
  | nil => exact h
  | cons p ps ih => exact ih (hydrateOne s p) (hydratedFlag_mono s p q h)

/-- Helper: after a hydration pass, every atom targeted by some pair of the
pass is hydrated. -/
theorem useHydrateAtoms_sets_flags (pairs : List HydratePair)
    (s : SSRAtomStore) (q : HydratePair) (hq : q ∈ pairs) :
    hydratedFlag (useHydrateAtoms pairs s) q = true := by
  induction pairs generalizing s with
  | nil => cases hq
  | cons p ps ih =>
      rcases List.mem_cons.mp hq with h | h
      · subst h
        exact useHydrateAtoms_flag_mono ps (hydrateOne s q) q
          (hydratedFlag_self s q)
      · exact ih (hydrateOne s p) h

/-- Helper: a hydration pass all of whose pairs target already-hydrated atoms
leaves the store unchanged. -/
theorem useHydrateAtoms_of_hydrated (pairs : List HydratePair)
    (s : SSRAtomStore)
    (h : ∀ q ∈ pairs, hydratedFlag s q = true) :
    useHydrateAtoms pairs s = s := by
  induction pairs with
  | nil => rfl
  | cons p ps ih =>
      have hp : hydrateOne s p = s :=
        hydrateOne_of_hydrated s p (h p (List.mem_cons_self p ps))
      show useHydrateAtoms ps (hydrateOne s p) = s
      rw [hp]
      exact ih fun q hq => h q (List.mem_cons_of_mem p hq)

/-- Claim C8: applying the same hydration payload a second time through
SSRProvider is a no-op — the second pass finds every targeted atom already
hydrated and leaves every cell of the store unchanged. -/
theorem ssrProvider_idempotent (ssrData : Option SSRDataPatch)
    (s : SSRAtomStore) :
    SSRProvider ssrData (SSRProvider ssrData s) = SSRProvider ssrData s := by
  unfold SSRProvider
  exact useHydrateAtoms_of_hydrated _ _
    (fun q hq => useHydrateAtoms_sets_flags _ s q hq)

end STC
